import Mathlib

/-!
# Shallow embedding of `ts-option-type` (`src/index.ts`)

The repository implements an `Option<T>` abstraction with two variants:
the module-level constant `None` and objects produced by the constructor
function `Some(value)`, together with thirteen combinators and five
conversion utilities (`fromValue`, `fromValueConditional`, `fromNullable`,
`fromUndefinable`, `createOptionFactory`).

The embedding has three layers, each translated directly from the source:

* a pure layer: `Opt` is the two-variant sum type; each combinator is a
  Lean function whose two match arms are the two variants' method bodies
  from `src/index.ts`;
* a monadic instrumentation layer (`...M` definitions): the same method
  bodies with consumer-supplied callbacks living in an arbitrary monad.
  JavaScript callbacks may have effects (or may throw); instantiating the
  monad at `StateM Nat` with a counting callback settles the
  "callback is never invoked on this path" parts of the spec, and
  instantiating it at `Except ε` settles the error-propagation parts.
  A JavaScript thunk `() => T` becomes a monadic action `M T`;
* an object-identity layer (`JSObj`, the `...Obj` definitions): JavaScript
  objects carry an identity.  `NoneObj` is the module constant (identity
  `0`); `mkSome` allocates a fresh object with the next identity from an
  explicit allocation counter.  Each `...Obj` body mirrors the source:
  `return None` returns the constant, `return this` returns the receiver
  object itself, `Some(...)` allocates.

`JVal α` models a JavaScript value that may be `null`, `undefined`, or a
proper value of type `α`, as needed by the conversion utilities.
-/

inductive Opt (α : Type) : Type where
  | none : Opt α
  | some (value : α) : Opt α
deriving DecidableEq, Repr

/-- The exported constant `None` (`src/index.ts` line 123). -/
def None {α : Type} : Opt α := Opt.none

/-- The exported constructor function `Some` (`src/index.ts` line 161). -/
def Some {α : Type} (value : α) : Opt α := Opt.some value

/-- `isNone` field: `true` on `None`, `false` on `Some` objects. -/
def Opt.isNone {α : Type} : Opt α → Bool
  | .none => true
  | .some _ => false

/-- `isSome` field: `false` on `None`, `true` on `Some` objects. -/
def Opt.isSome {α : Type} : Opt α → Bool
  | .none => false
  | .some _ => true

/-- `match(some, none)`: `None.match(_, none) = none()`;
`Some(value).match(some, _) = some(value)`.  The `none` callback is a
thunk `() => U`. -/
def Opt.match' {α β : Type} : Opt α → (α → β) → (Unit → β) → β
  | .none, _, n => n ()
  | .some v, s, _ => s v

/-- `getValueOrDefault(defaultValue)`: the default on `None`, the held
value on `Some`. -/
def Opt.getValueOrDefault {α : Type} : Opt α → α → α
  | .none, d => d
  | .some v, _ => v

/-- `getValueOrCompute(computeFn)`: `computeFn()` on `None`, the held
value on `Some`. -/
def Opt.getValueOrCompute {α : Type} : Opt α → (Unit → α) → α
  | .none, c => c ()
  | .some v, _ => v

/-- `mapOrDefault(map, defaultValue)`: the default on `None`,
`map(value)` on `Some`. -/
def Opt.mapOrDefault {α β : Type} : Opt α → (α → β) → β → β
  | .none, _, d => d
  | .some v, f, _ => f v

/-- `mapOrCompute(map, computeFn)`: `computeFn()` on `None`,
`map(value)` on `Some`. -/
def Opt.mapOrCompute {α β : Type} : Opt α → (α → β) → (Unit → β) → β
  | .none, _, c => c ()
  | .some v, f, _ => f v

/-- `map(fn)`: `None.map(_) = None`; `Some(value).map(fn) = Some(fn(value))`. -/
def Opt.map {α β : Type} : Opt α → (α → β) → Opt β
  | .none, _ => None
  | .some v, f => Some (f v)

/-- `and(option)`: `None.and(_) = None`; `Some(_).and(option) = option`. -/
def Opt.and {α β : Type} : Opt α → Opt β → Opt β
  | .none, _ => None
  | .some _, o => o

/-- `andThen(fn)`: `None.andThen(_) = None`;
`Some(value).andThen(fn) = fn(value)`. -/
def Opt.andThen {α β : Type} : Opt α → (α → Opt β) → Opt β
  | .none, _ => None
  | .some v, f => f v

/-- `or(option)`: `None.or(option) = option`; `Some(value).or(_) = this`. -/
def Opt.or {α : Type} : Opt α → Opt α → Opt α
  | .none, o => o
  | .some v, _ => Some v

/-- `orElse(fn)`: `None.orElse(fn) = fn()`; `Some(value).orElse(_) = this`.
The callback is a thunk `() => Option<T>`. -/
def Opt.orElse {α : Type} : Opt α → (Unit → Opt α) → Opt α
  | .none, f => f ()
  | .some v, _ => Some v

/-- `filter(fn)`: `None.filter(_) = None`;
`Some(value).filter(fn) = fn(value) ? this : None`. -/
def Opt.filter {α : Type} : Opt α → (α → Bool) → Opt α
  | .none, _ => None
  | .some v, f => cond (f v) (Some v) None

/-! ## JavaScript raw-value model and the conversion utilities -/

/-- A JavaScript value of declared type `α` that may also be `null` or
`undefined`. -/
inductive JVal (α : Type) : Type where
  | jsNull : JVal α
  | jsUndefined : JVal α
  | val (a : α) : JVal α
deriving DecidableEq, Repr

/-- `fromValue(value)` (`src/index.ts` line 210):
`value === null || value === undefined ? None : Some(value)`. -/
def fromValue {α : Type} : JVal α → Opt (JVal α)
  | .jsNull => None
  | .jsUndefined => None
  | v => Some v

/-- `fromValueConditional(value, isNone)` (`src/index.ts` line 222):
`isNone(value) ? None : Some(value)`. -/
def fromValueConditional {α : Type} (value : α) (isNoneP : α → Bool) : Opt α :=
  cond (isNoneP value) None (Some value)

/-- `fromNullable(value)` (`src/index.ts` line 234):
`value === null ? None : Some(value)`. -/
def fromNullable {α : Type} : JVal α → Opt (JVal α)
  | .jsNull => None
  | v => Some v

/-- `fromUndefinable(value)` (`src/index.ts` line 246):
`value === undefined ? None : Some(value)`. -/
def fromUndefinable {α : Type} : JVal α → Opt (JVal α)
  | .jsUndefined => None
  | v => Some v

/-- `createOptionFactory(isNonePredicate)` (`src/index.ts` line 256):
`value => isNonePredicate(value) ? None : Some(value)`. -/
def createOptionFactory {α : Type} (isNonePredicate : α → Bool) : α → Opt α :=
  fun value => cond (isNonePredicate value) None (Some value)

/-! ## Monadic instrumentation of the callback-taking operations

Same method bodies as above, with consumer callbacks in a monad `M`.
A thunk callback `() => T` becomes an action `M T`; a callback
`T -> U` becomes `T → M U`.  The control flow is the source's: a path
that does not call the callback does not run its action. -/

/-- `match(some, none)` with monadic callbacks. -/
def Opt.matchM {α β : Type} {M : Type → Type} [Monad M] :
    Opt α → (α → M β) → M β → M β
  | .none, _, n => n
  | .some v, s, _ => s v

/-- `getValueOrCompute(computeFn)` with a monadic thunk. -/
def Opt.getValueOrComputeM {α : Type} {M : Type → Type} [Monad M] :
    Opt α → M α → M α
  | .none, c => c
  | .some v, _ => pure v

/-- `mapOrDefault(map, defaultValue)` with a monadic `map` callback. -/
def Opt.mapOrDefaultM {α β : Type} {M : Type → Type} [Monad M] :
    Opt α → (α → M β) → β → M β
  | .none, _, d => pure d
  | .some v, f, _ => f v

/-- `mapOrCompute(map, computeFn)` with monadic callbacks. -/
def Opt.mapOrComputeM {α β : Type} {M : Type → Type} [Monad M] :
    Opt α → (α → M β) → M β → M β
  | .none, _, c => c
  | .some v, f, _ => f v

/-- `map(fn)` with a monadic callback. -/
def Opt.mapM {α β : Type} {M : Type → Type} [Monad M] :
    Opt α → (α → M β) → M (Opt β)
  | .none, _ => pure None
  | .some v, f => do
    let u ← f v
    pure (Some u)

/-- `andThen(fn)` with a monadic callback. -/
def Opt.andThenM {α β : Type} {M : Type → Type} [Monad M] :
    Opt α → (α → M (Opt β)) → M (Opt β)
  | .none, _ => pure None
  | .some v, f => f v

/-- `orElse(fn)` with a monadic thunk. -/
def Opt.orElseM {α : Type} {M : Type → Type} [Monad M] :
    Opt α → M (Opt α) → M (Opt α)
  | .none, f => f
  | .some v, _ => pure (Some v)

/-- `filter(fn)` with a monadic predicate. -/
def Opt.filterM {α : Type} {M : Type → Type} [Monad M] :
    Opt α → (α → M Bool) → M (Opt α)
  | .none, _ => pure None
  | .some v, f => do
    let b ← f v
    pure (cond b (Some v) None)

/-- `fromValueConditional(value, isNone)` with a monadic predicate. -/
def fromValueConditionalM {α : Type} {M : Type → Type} [Monad M]
    (value : α) (isNoneP : α → M Bool) : M (Opt α) := do
  let b ← isNoneP value
  pure (cond b None (Some value))

/-- `createOptionFactory(isNonePredicate)` with a monadic predicate. -/
def createOptionFactoryM {α : Type} {M : Type → Type} [Monad M]
    (isNonePredicate : α → M Bool) : α → M (Opt α) :=
  fun value => do
    let b ← isNonePredicate value
    pure (cond b None (Some value))

/-- A counting wrapper: the pure callback `f`, instrumented to also bump a
call counter each time it is invoked. -/
def tick {α β : Type} (f : α → β) : α → StateM Nat β :=
  fun v s => (f v, s + 1)

/-- A counting wrapper for a thunk `() => T`. -/
def tickT {α : Type} (c : Unit → α) : StateM Nat α :=
  fun s => (c (), s + 1)

/-- A counting wrapper over a pair of counters, bumping the first. -/
def tickFst {α β : Type} (f : α → β) : α → StateM (Nat × Nat) β :=
  fun v s => (f v, (s.1 + 1, s.2))

/-- A counting wrapper for a thunk over a pair of counters, bumping the
second. -/
def tickSnd {α : Type} (c : Unit → α) : StateM (Nat × Nat) α :=
  fun s => (c (), (s.1, s.2 + 1))

/-! ## Object-identity model

JavaScript objects compared with `===`.  A `JSObj` carries the identity
of the object and its contents.  The module constant `None` is the single
object `NoneObj`, with identity `0`; `Some(value)` allocates a fresh
object, drawing its identity from an explicit allocation counter that
starts at `1`.  Each operation below mirrors its source body:
`return None` yields the constant, `return this` yields the receiver
object unchanged, and `Some(...)` allocates. -/

structure JSObj (α : Type) : Type where
  id : Nat
  data : Opt α
deriving DecidableEq, Repr

/-- The module-level constant `None` object. -/
def NoneObj {α : Type} : JSObj α := ⟨0, Opt.none⟩

/-- The constructor `Some(value)`: allocates a fresh object literal. -/
def mkSome {α : Type} (value : α) : Nat → JSObj α × Nat :=
  fun n => (⟨n, Opt.some value⟩, n + 1)

/-- `map` at the object level: `None.map(_)` returns the `None` constant;
`Some(value).map(fn)` returns the freshly allocated `Some(fn(value))`. -/
def JSObj.mapObj {α β : Type} (o : JSObj α) (f : α → β) : Nat → JSObj β × Nat :=
  match o.data with
  | .none => fun n => (NoneObj, n)
  | .some v => mkSome (f v)

/-- `and` at the object level: `None.and(_)` returns the `None` constant;
`Some(_).and(option)` returns the argument object itself. -/
def JSObj.andObj {α β : Type} (o : JSObj α) (x : JSObj β) : JSObj β :=
  match o.data with
  | .none => NoneObj
  | .some _ => x

/-- `andThen` at the object level: `None.andThen(_)` returns the `None`
constant; `Some(value).andThen(fn)` returns the object `fn(value)`
(the callback may itself allocate). -/
def JSObj.andThenObj {α β : Type} (o : JSObj α) (f : α → Nat → JSObj β × Nat) :
    Nat → JSObj β × Nat :=
  match o.data with
  | .none => fun n => (NoneObj, n)
  | .some v => f v

/-- `filter` at the object level: `None.filter(_)` returns the `None`
constant; `Some(value).filter(fn)` returns `this` (the receiver object)
when the predicate accepts, and the `None` constant when it rejects. -/
def JSObj.filterObj {α : Type} (o : JSObj α) (p : α → Bool) :
    Nat → JSObj α × Nat :=
  match o.data with
  | .none => fun n => (NoneObj, n)
  | .some v => fun n => (cond (p v) o NoneObj, n)

/-- `fromValue` at the object level. -/
def fromValueObj {α : Type} : JVal α → Nat → JSObj (JVal α) × Nat
  | .jsNull => fun n => (NoneObj, n)
  | .jsUndefined => fun n => (NoneObj, n)
  | v => mkSome v

/-- `fromValueConditional` at the object level. -/
def fromValueConditionalObj {α : Type} (value : α) (isNoneP : α → Bool) :
    Nat → JSObj α × Nat :=
  cond (isNoneP value) (fun n => (NoneObj, n)) (mkSome value)

/-- `fromNullable` at the object level. -/
def fromNullableObj {α : Type} : JVal α → Nat → JSObj (JVal α) × Nat
  | .jsNull => fun n => (NoneObj, n)
  | v => mkSome v

/-- `fromUndefinable` at the object level. -/
def fromUndefinableObj {α : Type} : JVal α → Nat → JSObj (JVal α) × Nat
  | .jsUndefined => fun n => (NoneObj, n)
  | v => mkSome v

/-- `createOptionFactory` at the object level. -/
def createOptionFactoryObj {α : Type} (isNonePredicate : α → Bool) :
    α → Nat → JSObj α × Nat :=
  fun value => cond (isNonePredicate value) (fun n => (NoneObj, n)) (mkSome value)

/-! ## Claims -/

/-- C1: `Some(v).map(f) = Some(f(v))`; `None.map(f) = None`; and on the
absent receiver the transform is never invoked (the instrumented call
counter is unchanged for every transform and every starting count). -/
theorem c1_map_functorial {α β : Type} (v : α) (f : α → β) (s : Nat) :
    (Some v).map f = Some (f v) ∧
    (None : Opt α).map f = None ∧
    Opt.mapM (None : Opt α) (tick f) s = (None, s) :=
  ⟨rfl, rfl, rfl⟩

/-- C2 counterexample: `fromNullable(undefined)` is a present instance,
reachable through a public conversion utility, whose held payload is
`undefined` — so the payload of a reachable present instance can be
`undefined`, contradicting the claim as stated. -/
theorem c2_counterexample :
    fromNullable (JVal.jsUndefined : JVal Nat) = Some JVal.jsUndefined ∧
    (fromNullable (JVal.jsUndefined : JVal Nat)).isSome = true :=
  ⟨rfl, rfl⟩

/-- C2 (amended): `fromValue` is the utility whose present results never
hold `null` or `undefined` (it maps both raw sentinels to `None` and
wraps exactly the proper values); `fromNullable(undefined)` and
`fromUndefinable(null)` are present instances holding `undefined`
resp. `null`; and once a value is wrapped presence is unconditional:
`Some(w)` is present for every raw payload `w`, including `null` and
`undefined`, and the combinators never reinterpret such a payload as
absence. -/
theorem c2_payload_policy {α β : Type} (a : α) (w : JVal α) (f : JVal α → β)
    (d : JVal α) :
    fromValue (JVal.jsNull : JVal α) = None ∧
    fromValue (JVal.jsUndefined : JVal α) = None ∧
    fromValue (JVal.val a) = Some (JVal.val a) ∧
    (Some w).isSome = true ∧
    (Some w).isNone = false ∧
    (Some w).getValueOrDefault d = w ∧
    (Some w).map (Opt.some ∘ f) = Some (Opt.some (f w)) ∧
    fromNullable (JVal.jsUndefined : JVal α) = Some JVal.jsUndefined ∧
    fromUndefinable (JVal.jsNull : JVal α) = Some JVal.jsNull :=
  ⟨rfl, rfl, rfl, rfl, rfl, rfl, rfl, rfl, rfl⟩

/-- C3: `andThen` is monadic bind (`Some(v).andThen(f) = f(v)`,
`None.andThen(f) = None` with the callback never invoked on the absent
receiver), a chain of `andThen` calls whose first step yields the absent
result short-circuits without invoking the subsequent callback (the
hypothesis scopes over that conjunct alone), and `and` is the strict
second-operand combinator (`Some(v).and(o) = o`, `None.and(o) = None`). -/
theorem c3_andThen_bind_and_strict {α β γ : Type} (v : α) (f : α → Opt β)
    (g : β → Opt γ) (x : Opt γ) (s : Nat) :
    (Some v).andThen f = f v ∧
    (None : Opt α).andThen f = None ∧
    Opt.andThenM (None : Opt α) (tick f) s = (None, s) ∧
    (Some v).and x = x ∧
    (None : Opt α).and x = None ∧
    (f v = None → Opt.andThenM ((Some v).andThen f) (tick g) s = (None, s)) := by
  refine ⟨rfl, rfl, rfl, rfl, rfl, fun hf => ?_⟩
  show Opt.andThenM (f v) (tick g) s = (None, s)
  rw [hf]
  rfl

/-- C3 witness: a concrete two-step `andThen` chain whose first step
yields the absent result short-circuits without bumping the second
callback's call counter. -/
theorem c3_witness :
    Opt.andThenM ((Some 1).andThen (fun _ : Nat => (None : Opt Nat)))
      (tick (fun b : Nat => Some b)) 0 = (None, 0) :=
  (c3_andThen_bind_and_strict 1 (fun _ => None) (fun b => Some b)
    (Some 2) 0).2.2.2.2.2 rfl

/-- C4: `or`/`orElse` are left identities on a present receiver
(`Some(v).or(x) = Some(v)`, `Some(v).orElse(f) = Some(v)`, with the
callback never invoked there — instrumented counter unchanged) and
right-biased on the absent receiver (`None.or(x) = x`,
`None.orElse(f) = f()`). -/
theorem c4_or_orElse_bias {α : Type} (v : α) (x : Opt α) (f : Unit → Opt α)
    (s : Nat) :
    (Some v).or x = Some v ∧
    (Some v).orElse f = Some v ∧
    (None : Opt α).or x = x ∧
    (None : Opt α).orElse f = f () ∧
    Opt.orElseM (Some v) (tickT f) s = (Some v, s) :=
  ⟨rfl, rfl, rfl, rfl, rfl⟩

/-- C5: `Some(v).filter(p)` is `Some(v)` when `p(v)` is true and `None`
otherwise; `None.filter(p) = None` for every `p`, and the predicate is
never invoked on the absent receiver (instrumented counter unchanged). -/
theorem c5_filter_spec {α : Type} (v : α) (p : α → Bool) (s : Nat) :
    (p v = true → (Some v).filter p = Some v) ∧
    (p v = false → (Some v).filter p = None) ∧
    (None : Opt α).filter p = None ∧
    Opt.filterM (None : Opt α) (tick p) s = (None, s) :=
  ⟨fun h => by simp [Opt.filter, Some, h],
   fun h => by simp [Opt.filter, Some, h],
   rfl, rfl⟩

/-- C5 witness: the filter claim at the concrete predicate `0 < x`,
accepting `2` and rejecting `0`. -/
theorem c5_witness :
    (Some 2).filter (fun x : Nat => decide (0 < x)) = Some 2 ∧
    (Some 0).filter (fun x : Nat => decide (0 < x)) = None :=
  ⟨(c5_filter_spec 2 (fun x => decide (0 < x)) 0).1 (by decide),
   (c5_filter_spec 0 (fun x => decide (0 < x)) 0).2.1 (by decide)⟩

/-- C6: `getValueOrDefault`, `getValueOrCompute`, `mapOrDefault` and
`mapOrCompute` return the held value / transform of it on a present
receiver and the default / computed fallback on the absent one; the
compute thunks are invoked exactly once on the absent path and never on
the present path, while the transforms are invoked exactly once on the
present path and never on the absent path (instrumented counters). -/
theorem c6_defaulting {α β : Type} (v d : α) (c : Unit → α) (f : α → β)
    (db : β) (cb : Unit → β) (s : Nat) (s2 : Nat × Nat) :
    (Some v).getValueOrDefault d = v ∧
    (None : Opt α).getValueOrDefault d = d ∧
    (Some v).getValueOrCompute c = v ∧
    (None : Opt α).getValueOrCompute c = c () ∧
    (Some v).mapOrDefault f db = f v ∧
    (None : Opt α).mapOrDefault f db = db ∧
    (Some v).mapOrCompute f cb = f v ∧
    (None : Opt α).mapOrCompute f cb = cb () ∧
    Opt.getValueOrComputeM (Some v) (tickT c) s = (v, s) ∧
    Opt.getValueOrComputeM (None : Opt α) (tickT c) s = (c (), s + 1) ∧
    Opt.mapOrDefaultM (None : Opt α) (tick f) db s = (db, s) ∧
    Opt.mapOrDefaultM (Some v) (tick f) db s = (f v, s + 1) ∧
    Opt.mapOrComputeM (Some v) (tickFst f) (tickSnd cb) s2 = (f v, (s2.1 + 1, s2.2)) ∧
    Opt.mapOrComputeM (None : Opt α) (tickFst f) (tickSnd cb) s2 = (cb (), (s2.1, s2.2 + 1)) :=
  ⟨rfl, rfl, rfl, rfl, rfl, rfl, rfl, rfl, rfl, rfl, rfl, rfl, rfl, rfl⟩

/-- C7: the conversion utilities apply distinct absence sentinels —
`fromValue` is absent exactly on `null` and `undefined`; `fromNullable`
is absent only on `null` (so `fromNullable(undefined)` is present);
`fromUndefinable` is absent only on `undefined` (so
`fromUndefinable(null)` is present); and on every present result the
payload is exactly the input value.  Since a raw input is exactly
`null`, `undefined` or a proper value, the nine equations characterise
the three functions completely. -/
theorem c7_conversion_sentinels {α : Type} (a : α) :
    fromValue (JVal.jsNull : JVal α) = None ∧
    fromValue (JVal.jsUndefined : JVal α) = None ∧
    fromValue (JVal.val a) = Some (JVal.val a) ∧
    fromNullable (JVal.jsNull : JVal α) = None ∧
    fromNullable (JVal.jsUndefined : JVal α) = Some JVal.jsUndefined ∧
    fromNullable (JVal.val a) = Some (JVal.val a) ∧
    fromUndefinable (JVal.jsUndefined : JVal α) = None ∧
    fromUndefinable (JVal.jsNull : JVal α) = Some JVal.jsNull ∧
    fromUndefinable (JVal.val a) = Some (JVal.val a) :=
  ⟨rfl, rfl, rfl, rfl, rfl, rfl, rfl, rfl, rfl⟩

/-- C8: the factory returned by `createOptionFactory(p)` applied to `v`
equals `fromValueConditional(v, p)` for every predicate and every input
— absent when `p(v)` is true, present with payload `v` otherwise. -/
theorem c8_factory_equiv {α : Type} (p : α → Bool) (v : α) :
    createOptionFactory p v = fromValueConditional v p ∧
    (p v = true → createOptionFactory p v = None) ∧
    (p v = false → createOptionFactory p v = Some v) :=
  ⟨rfl,
   fun h => by simp [createOptionFactory, h],
   fun h => by simp [createOptionFactory, h]⟩

/-- C8 witness: the spec's literal scenario — the factory for the
predicate `x < 0` is absent at `-1` and present with payload `5` at
`5`, and agrees with `fromValueConditional` there. -/
theorem c8_witness :
    createOptionFactory (fun x : Int => decide (x < 0)) (-1) = None ∧
    createOptionFactory (fun x : Int => decide (x < 0)) 5 = Some 5 ∧
    createOptionFactory (fun x : Int => decide (x < 0)) 5 =
      fromValueConditional 5 (fun x : Int => decide (x < 0)) :=
  ⟨(c8_factory_equiv (fun x : Int => decide (x < 0)) (-1)).2.1 (by decide),
   (c8_factory_equiv (fun x : Int => decide (x < 0)) 5).2.2 (by decide),
   (c8_factory_equiv (fun x : Int => decide (x < 0)) 5).1⟩

/-- C9: in the exception-instrumented embedding, every callback-taking
core operation and conversion utility, on every receiver, returns a
non-error result equal to its pure counterpart whenever its callbacks do
not throw (the core's own code never raises); and when a consumer
callback throws on the path where it is invoked, the error propagates
unmodified out of the operation.  (The callback-free operations are the
total pure functions of the embedding and have no exceptional path at
all.) -/
theorem c9_no_raise_and_propagation {α β ε : Type} (o : Opt α) (v : α)
    (f : α → β) (g : α → Opt β) (p : α → Bool) (c : Unit → α)
    (cb nb : Unit → β) (fe : Unit → Opt α) (db : β) (e : ε) :
    Opt.matchM (M := Except ε) o (fun a => pure (f a)) (pure (nb ())) =
      Except.ok (o.match' f nb) ∧
    Opt.getValueOrComputeM (M := Except ε) o (pure (c ())) =
      Except.ok (o.getValueOrCompute c) ∧
    Opt.mapOrDefaultM (M := Except ε) o (fun a => pure (f a)) db =
      Except.ok (o.mapOrDefault f db) ∧
    Opt.mapOrComputeM (M := Except ε) o (fun a => pure (f a)) (pure (cb ())) =
      Except.ok (o.mapOrCompute f cb) ∧
    Opt.mapM (M := Except ε) o (fun a => pure (f a)) = Except.ok (o.map f) ∧
    Opt.andThenM (M := Except ε) o (fun a => pure (g a)) =
      Except.ok (o.andThen g) ∧
    Opt.orElseM (M := Except ε) o (pure (fe ())) = Except.ok (o.orElse fe) ∧
    Opt.filterM (M := Except ε) o (fun a => pure (p a)) =
      Except.ok (o.filter p) ∧
    fromValueConditionalM (M := Except ε) v (fun a => pure (p a)) =
      Except.ok (fromValueConditional v p) ∧
    createOptionFactoryM (M := Except ε) (fun a => pure (p a)) v =
      Except.ok (createOptionFactory p v) ∧
    Opt.matchM (Some v) (fun _ => (throw e : Except ε β)) (pure (nb ())) =
      Except.error e ∧
    Opt.matchM (None : Opt α) (fun a => pure (f a)) (throw e : Except ε β) =
      Except.error e ∧
    Opt.getValueOrComputeM (None : Opt α) (throw e : Except ε α) =
      Except.error e ∧
    Opt.mapOrDefaultM (Some v) (fun _ => (throw e : Except ε β)) db =
      Except.error e ∧
    Opt.mapOrComputeM (Some v) (fun _ => (throw e : Except ε β)) (pure (cb ())) =
      Except.error e ∧
    Opt.mapOrComputeM (None : Opt α) (fun a => pure (f a)) (throw e : Except ε β) =
      Except.error e ∧
    Opt.mapM (Some v) (fun _ => (throw e : Except ε β)) = Except.error e ∧
    Opt.andThenM (Some v) (fun _ => (throw e : Except ε (Opt β))) =
      Except.error e ∧
    Opt.orElseM (None : Opt α) (throw e : Except ε (Opt α)) = Except.error e ∧
    Opt.filterM (Some v) (fun _ => (throw e : Except ε Bool)) =
      Except.error e ∧
    fromValueConditionalM v (fun _ => (throw e : Except ε Bool)) =
      Except.error e ∧
    createOptionFactoryM (fun _ => (throw e : Except ε Bool)) v =
      Except.error e := by
  refine ⟨?_, ?_, ?_, ?_, ?_, ?_, ?_, ?_, rfl, rfl,
    rfl, rfl, rfl, rfl, rfl, rfl, rfl, rfl, rfl, rfl, rfl, rfl⟩ <;>
    cases o <;> rfl

/-- C10: in the object-identity model, every operation whose result is
absent returns the one canonical `None` object itself (identity `0`,
allocation counter untouched): `None`'s `map`, `and`, `andThen` and
`filter`; `Some`'s `filter` when the predicate rejects; and all five
conversion utilities on their absent branch — while `Some(...)` always
allocates an object whose identity is never `0`.  Hence any two absent
results are the identical object. -/
theorem c10_canonical_none {α β : Type} (f : α → β)
    (g : α → Nat → JSObj β × Nat) (x : JSObj β) (p : α → Bool) (v : α)
    (i n : Nat) :
    JSObj.mapObj (NoneObj : JSObj α) f n = (NoneObj, n) ∧
    JSObj.andObj (NoneObj : JSObj α) x = NoneObj ∧
    JSObj.andThenObj (NoneObj : JSObj α) g n = (NoneObj, n) ∧
    JSObj.filterObj (NoneObj : JSObj α) p n = (NoneObj, n) ∧
    fromValueObj (JVal.jsNull : JVal α) n = (NoneObj, n) ∧
    fromValueObj (JVal.jsUndefined : JVal α) n = (NoneObj, n) ∧
    fromNullableObj (JVal.jsNull : JVal α) n = (NoneObj, n) ∧
    fromUndefinableObj (JVal.jsUndefined : JVal α) n = (NoneObj, n) ∧
    (NoneObj : JSObj α).id = 0 ∧
    (1 ≤ n → 1 ≤ (mkSome v n).1.id) ∧
    (p v = false → JSObj.filterObj ⟨i, Opt.some v⟩ p n = (NoneObj, n)) ∧
    (p v = true → fromValueConditionalObj v p n = (NoneObj, n)) ∧
    (p v = true → createOptionFactoryObj p v n = (NoneObj, n)) :=
  ⟨rfl, rfl, rfl, rfl, rfl, rfl, rfl, rfl, rfl,
   fun h => h,
   fun h => by simp [JSObj.filterObj, h],
   fun h => by simp [fromValueConditionalObj, h],
   fun h => by simp [createOptionFactoryObj, h]⟩

/-- C10 witness: concrete absent results — a rejecting `filter` on a
present object, `fromValueConditional` and the factory on a satisfied
absence predicate — are all the canonical `None` object with the
allocation counter untouched, and a concrete `Some` allocation has a
non-zero identity. -/
theorem c10_witness :
    JSObj.filterObj ⟨5, Opt.some 3⟩ (fun a : Nat => decide (a = 0)) 1 =
      (NoneObj, 1) ∧
    fromValueConditionalObj (0 : Nat) (fun a => decide (a = 0)) 1 =
      (NoneObj, 1) ∧
    createOptionFactoryObj (fun a : Nat => decide (a = 0)) 0 1 =
      (NoneObj, 1) ∧
    1 ≤ (mkSome (0 : Nat) 1).1.id := by
  obtain ⟨-, -, -, -, -, -, -, -, -, h10, -, h12, h13⟩ :=
    c10_canonical_none (fun a : Nat => a) (fun _ n => ((NoneObj : JSObj Nat), n))
      NoneObj (fun a : Nat => decide (a = 0)) 0 5 1
  obtain ⟨-, -, -, -, -, -, -, -, -, -, h11, -, -⟩ :=
    c10_canonical_none (fun a : Nat => a) (fun _ n => ((NoneObj : JSObj Nat), n))
      NoneObj (fun a : Nat => decide (a = 0)) 3 5 1
  exact ⟨h11 (by decide), h12 (by decide), h13 (by decide), h10 (by decide)⟩
